import Mathlib

/-!
Shallow embedding of the resilience-cognitive-systems detection pipeline:
the bounding-box smoother (src/smoothing.py), the camera worker's safety
gate and classifier bookkeeping (src/camera_manager.py), the Roboflow
client's failure handling (src/roboflow_client.py), and the UI-side
distance override (src/ui/main_window.py).  Pixel coordinates are embedded
as rationals; frame images are abstracted away (only detection outcomes
matter to the verified logic).
-/

/-- `BoundingBox` from src/smoothing.py: a box in pixel coordinates. -/
structure BoundingBox where
  x : ℚ
  y : ℚ
  width : ℚ
  height : ℚ
deriving DecidableEq

/-- `DetectedQR` from src/smoothing.py: decoded payload plus its box. -/
structure DetectedQR where
  payload : String
  bounding_box : BoundingBox
deriving DecidableEq

/-- State of `BoundingBoxSmoother` (src/smoothing.py).  The Python object
holds the two tunables and the three mutable fields. -/
structure BoundingBoxSmoother where
  persistence_frames : Nat
  smoothing_alpha : ℚ
  smoothed_box : Option BoundingBox
  frames_without_detection : Nat
  last_payload : Option String
deriving DecidableEq

/-- `BoundingBoxSmoother.__init__`: fresh state, no box, no payload. -/
def BoundingBoxSmoother.init (persistence_frames : Nat) (smoothing_alpha : ℚ) :
    BoundingBoxSmoother :=
  { persistence_frames := persistence_frames
    smoothing_alpha := smoothing_alpha
    smoothed_box := none
    frames_without_detection := 0
    last_payload := none }

/-- The exponential blend computed inside `BoundingBoxSmoother._smooth_box`
when a previous smoothed box exists. -/
def smoothBlend (alpha : ℚ) (new_box old : BoundingBox) : BoundingBox :=
  { x := alpha * new_box.x + (1 - alpha) * old.x
    y := alpha * new_box.y + (1 - alpha) * old.y
    width := alpha * new_box.width + (1 - alpha) * old.width
    height := alpha * new_box.height + (1 - alpha) * old.height }

/-- `BoundingBoxSmoother._smooth_box`: stores and returns the raw box on the
first-ever detection, otherwise stores and returns the blend. -/
def BoundingBoxSmoother.smoothBox (s : BoundingBoxSmoother) (new_box : BoundingBox) :
    BoundingBoxSmoother × BoundingBox :=
  match s.smoothed_box with
  | none => ({ s with smoothed_box := some new_box }, new_box)
  | some old =>
      let smoothed := smoothBlend s.smoothing_alpha new_box old
      ({ s with smoothed_box := some smoothed }, smoothed)

/-- `BoundingBoxSmoother.update`: the per-frame state machine.  Returns the
successor state together with the stabilized output of this frame. -/
def BoundingBoxSmoother.update (s : BoundingBoxSmoother) (detection : Option DetectedQR) :
    BoundingBoxSmoother × Option DetectedQR :=
  match detection with
  | some d =>
      let s1 := { s with frames_without_detection := 0, last_payload := some d.payload }
      let r := s1.smoothBox d.bounding_box
      (r.1, some { payload := d.payload, bounding_box := r.2 })
  | none =>
      let f := s.frames_without_detection + 1
      if s.persistence_frames ≤ f then
        ({ s with frames_without_detection := f, smoothed_box := none, last_payload := none },
          none)
      else
        let s1 := { s with frames_without_detection := f }
        match s.smoothed_box, s.last_payload with
        | some b, some p => (s1, some { payload := p, bounding_box := b })
        | some _, none => (s1, none)
        | none, _ => (s1, none)

/-- `BoundingBoxSmoother.reset`: clear all mutable state. -/
def BoundingBoxSmoother.reset (s : BoundingBoxSmoother) : BoundingBoxSmoother :=
  { s with smoothed_box := none, frames_without_detection := 0, last_payload := none }

/-- State after feeding `update none` (a missed frame) `k` times in a row. -/
def missesState (s : BoundingBoxSmoother) : Nat → BoundingBoxSmoother
  | 0 => s
  | k + 1 => ((missesState s k).update none).1

/-- Output produced on the `k`-th consecutive missed frame (`k ≥ 1`). -/
def missOutput (s : BoundingBoxSmoother) : Nat → Option DetectedQR
  | 0 => none
  | k + 1 => ((missesState s k).update none).2

/-- State after feeding the same detection `d` to the smoother `n` times. -/
def constFeed (s : BoundingBoxSmoother) (d : DetectedQR) : Nat → BoundingBoxSmoother
  | 0 => s
  | n + 1 => ((constFeed s d n).update (some d)).1

/-- Iterating the blend against a constant target box, starting from `b`. -/
def iterSmooth (alpha : ℚ) (target b : BoundingBox) : Nat → BoundingBox
  | 0 => b
  | n + 1 => smoothBlend alpha target (iterSmooth alpha target b n)

/-- The box the smoother holds right after the first feed of `d`:
the raw box on a first-ever detection, otherwise the blend. -/
def firstFeedBox (s : BoundingBoxSmoother) (d : DetectedQR) : BoundingBox :=
  match s.smoothed_box with
  | none => d.bounding_box
  | some old => smoothBlend s.smoothing_alpha d.bounding_box old

/-- Invariant of the smoother state: the held box and the held payload are
absent together (guards in `update` read both). -/
def SmootherInv (s : BoundingBoxSmoother) : Prop :=
  s.smoothed_box = none ↔ s.last_payload = none

instance (s : BoundingBoxSmoother) : Decidable (SmootherInv s) := by
  unfold SmootherInv; infer_instance

/-- `ClassificationBBox` from src/camera_manager.py. -/
structure ClassificationBBox where
  x : ℚ
  y : ℚ
  width : ℚ
  height : ℚ
deriving DecidableEq

/-- The classifier-side mutable fields of `CameraWorker`, shared between the
capture thread and the Roboflow worker under `_roboflow_result_lock`. -/
structure ClassifierState where
  classification_detected : Bool
  classification_bbox : Option ClassificationBBox
  frames_without_classification : Nat
deriving DecidableEq

/-- `RoboflowDetection` from src/roboflow_client.py (center-form box). -/
structure RoboflowDetection where
  class_name : String
  confidence : ℚ
  x : ℚ
  y : ℚ
  width : ℚ
  height : ℚ
deriving DecidableEq

/-- `RoboflowDetection.bbox`: top-left form `(x, y, width, height)`. -/
def RoboflowDetection.bbox (d : RoboflowDetection) : ℚ × ℚ × ℚ × ℚ :=
  (d.x - d.width / 2, d.y - d.height / 2, d.width, d.height)

/-- `RoboflowResult` from src/roboflow_client.py (image size omitted: no
verified logic reads it). -/
structure RoboflowResult where
  detected : Bool
  detection : Option RoboflowDetection
deriving DecidableEq

/-- Outcome of one HTTP exchange as seen inside `RoboflowClient.detect`:
either a successfully parsed result, or one of the failure classes the
method catches (timeout, request error including non-2xx responses raised
by `raise_for_status`, or any other exception). -/
inductive ApiOutcome where
  | ok (parsed : RoboflowResult)
  | timeout
  | requestFailed
  | unexpectedError
deriving DecidableEq

/-- `RoboflowClient.detect` (src/roboflow_client.py): with no API key, or on
any caught failure, it returns `detected = false` with no detection; the
function is total, so no error escapes to the worker. -/
def RoboflowClient.detect (api_key : Option String) (outcome : ApiOutcome) : RoboflowResult :=
  match api_key with
  | none => { detected := false, detection := none }
  | some _ =>
      match outcome with
      | .ok parsed => parsed
      | .timeout => { detected := false, detection := none }
      | .requestFailed => { detected := false, detection := none }
      | .unexpectedError => { detected := false, detection := none }

/-- The no-detection / failure branch of `CameraWorker._roboflow_worker`:
bump the counter, clear detection and box on reaching the persistence
threshold (the counter itself keeps its incremented value). -/
def classifierMiss (persistence : Nat) (s : ClassifierState) : ClassifierState :=
  let f := s.frames_without_classification + 1
  if persistence ≤ f then
    { classification_detected := false
      classification_bbox := none
      frames_without_classification := f }
  else
    { s with frames_without_classification := f }

/-- The shared-state update performed by `CameraWorker._roboflow_worker`
under the result lock, given one classifier result.  `persistence` embeds
`ROBOFLOW_PERSISTENCE_FRAMES`. -/
def roboflowWorkerUpdate (persistence : Nat) (s : ClassifierState) (result : RoboflowResult) :
    ClassifierState :=
  match result.detected, result.detection with
  | true, some det =>
      { classification_detected := true
        frames_without_classification := 0
        classification_bbox := some
          { x := det.x - det.width / 2
            y := det.y - det.height / 2
            width := det.width
            height := det.height } }
  | true, none =>
      classifierMiss persistence s
  | false, _ =>
      classifierMiss persistence s

/-- The enable/disable flag plus classifier fields of `CameraWorker` touched
by the `roboflow_enabled` setter. -/
structure CameraWorkerState where
  roboflow_enabled : Bool
  classifier : ClassifierState
deriving DecidableEq

/-- The `roboflow_enabled` property setter of `CameraWorker`: stores the
flag and, when disabling, resets the whole classification state. -/
def setRoboflowEnabled (s : CameraWorkerState) (value : Bool) : CameraWorkerState :=
  if value then
    { s with roboflow_enabled := true }
  else
    { roboflow_enabled := false
      classifier :=
        { classification_detected := false
          classification_bbox := none
          frames_without_classification := 0 } }

/-- `queue.Queue(maxsize=1).put_nowait` wrapped in `except queue.Full: pass`
(src/camera_manager.py, capture loop): the slot keeps its occupant when
full; the boolean tells whether the item was accepted. -/
def tryPutNowait {α : Type} (slot : Option α) (item : α) : Option α × Bool :=
  match slot with
  | none => (some item, true)
  | some inflight => (some inflight, false)

/-- `can_continue_moving` as computed in `CameraWorker.run`: with the
classifier enabled both signals are required, otherwise the marker alone. -/
def canContinueMoving (roboflow_enabled robot_detected classification_detected : Bool) : Bool :=
  if roboflow_enabled then robot_detected && classification_detected else robot_detected

/-- The distance override in `MainWindow._on_frame_ready`: above the
threshold the banner shows may-continue unconditionally, otherwise it shows
the frame's own safety verdict. -/
def uiSafetyDecision (current_distance distance_threshold : Int)
    (frame_can_continue : Bool) : Bool :=
  if distance_threshold < current_distance then true else frame_can_continue

/-- `QR_DETECTION_SCALE` from src/camera_manager.py. -/
def QR_DETECTION_SCALE : ℚ := 1 / 2

/-- `TARGET_PAYLOAD` from src/camera_manager.py. -/
def TARGET_PAYLOAD : String := "ROBOT_R1"

/-- A raw rectangle as returned by the pyzbar decoder (downscaled-frame
pixel coordinates). -/
structure QRRect where
  left : ℚ
  top : ℚ
  width : ℚ
  height : ℚ
deriving DecidableEq

/-- One decoded symbol `(payload, rect)` from the external decoder. -/
structure DecodedSymbol where
  data : String
  rect : QRRect
deriving DecidableEq

/-- What one call to the external decoder does: return a (possibly empty)
list of decoded symbols, or raise. -/
inductive DecodeOutcome where
  | ok (decoded : List DecodedSymbol)
  | raised (msg : String)
deriving DecidableEq

/-- The filtering loop of `CameraWorker._detect_qr`: first symbol whose
payload equals the target wins; its rect is scaled back by
`1 / QR_DETECTION_SCALE`. -/
def findTargetSymbol : List DecodedSymbol → Option DetectedQR
  | [] => none
  | qr :: rest =>
      if qr.data = TARGET_PAYLOAD then
        some { payload := qr.data
               bounding_box :=
                 { x := qr.rect.left * (1 / QR_DETECTION_SCALE)
                   y := qr.rect.top * (1 / QR_DETECTION_SCALE)
                   width := qr.rect.width * (1 / QR_DETECTION_SCALE)
                   height := qr.rect.height * (1 / QR_DETECTION_SCALE) } }
      else findTargetSymbol rest

/-- `CameraWorker._detect_qr`: the body contains no try/except, so when the
external decoder raises, the exception propagates to the caller; only a
normal return with no matching payload yields `none`. -/
def CameraWorker.detectQr (decoder : DecodeOutcome) : Except String (Option DetectedQR) :=
  match decoder with
  | .ok decoded => .ok (findTargetSymbol decoded)
  | .raised msg => .error msg

/-- The detection step of one capture-loop iteration in `CameraWorker.run`
(`detection = self._detect_qr(frame) if qr_enabled else None`), which also
has no exception handler around it. -/
def captureDetectStep (qr_enabled : Bool) (decoder : DecodeOutcome) :
    Except String (Option DetectedQR) :=
  if qr_enabled then CameraWorker.detectQr decoder else .ok none

/-! ## Helper lemmas about the smoother -/

theorem BoundingBoxSmoother.update_miss_within (s : BoundingBoxSmoother)
    (h : ¬ s.persistence_frames ≤ s.frames_without_detection + 1) :
    (s.update none).1
      = { s with frames_without_detection := s.frames_without_detection + 1 } := by
  obtain ⟨pf, a, sb, fwd, lp⟩ := s
  rcases sb with _ | b <;> rcases lp with _ | p <;>
    simp [BoundingBoxSmoother.update, h]

theorem BoundingBoxSmoother.update_miss_held (s : BoundingBoxSmoother)
    (b : BoundingBox) (p : String)
    (h : ¬ s.persistence_frames ≤ s.frames_without_detection + 1)
    (hb : s.smoothed_box = some b) (hp : s.last_payload = some p) :
    (s.update none).2 = some { payload := p, bounding_box := b } := by
  obtain ⟨pf, a, sb, fwd, lp⟩ := s
  simp only at hb hp
  subst hb; subst hp
  simp [BoundingBoxSmoother.update, h]

theorem BoundingBoxSmoother.update_miss_nothing_held (s : BoundingBoxSmoother)
    (h : ¬ s.persistence_frames ≤ s.frames_without_detection + 1)
    (hb : s.smoothed_box = none) :
    (s.update none).2 = none := by
  obtain ⟨pf, a, sb, fwd, lp⟩ := s
  simp only at hb
  subst hb
  rcases lp with _ | p <;> simp [BoundingBoxSmoother.update, h]

theorem BoundingBoxSmoother.update_miss_clear (s : BoundingBoxSmoother)
    (h : s.persistence_frames ≤ s.frames_without_detection + 1) :
    s.update none
      = ({ s with
            frames_without_detection := s.frames_without_detection + 1
            smoothed_box := none
            last_payload := none }, none) := by
  obtain ⟨pf, a, sb, fwd, lp⟩ := s
  simp [BoundingBoxSmoother.update, h]

theorem missesState_stable (s : BoundingBoxSmoother) (k : Nat)
    (h0 : s.frames_without_detection = 0) (hk : k < s.persistence_frames) :
    missesState s k = { s with frames_without_detection := k } := by
  induction k with
  | zero =>
      obtain ⟨pf, a, sb, fwd, lp⟩ := s
      simp only at h0
      subst h0
      rfl
  | succ k ih =>
      have hk1 : k < s.persistence_frames := Nat.lt_of_succ_lt hk
      rw [missesState, ih hk1]
      rw [BoundingBoxSmoother.update_miss_within]
      exact Nat.not_le_of_lt hk

/-! ## Claim theorems: safety gate, classifier worker, capture loop -/

/-- C1: whenever the current distance reading exceeds the configured
distance threshold, the safety decision shown to the consumer
(`_safety_banner.can_continue`) is true, regardless of the marker-detected,
classifier-detected, and enabled/disabled states. -/
theorem safety_gate_distance_override
    (current_distance distance_threshold : Int)
    (roboflow_enabled robot_detected classification_detected : Bool)
    (h : distance_threshold < current_distance) :
    uiSafetyDecision current_distance distance_threshold
      (canContinueMoving roboflow_enabled robot_detected classification_detected) = true := by
  simp [uiSafetyDecision, h]

theorem safety_gate_distance_override_witness :
    (100 : Int) < 200 ∧
    uiSafetyDecision 200 100 (canContinueMoving false false false) = true ∧
    uiSafetyDecision 200 100 (canContinueMoving true false false) = true :=
  ⟨by decide,
   safety_gate_distance_override 200 100 false false false (by decide),
   safety_gate_distance_override 200 100 true false false (by decide)⟩

/-- C2: for a frame whose distance reading does not exceed the threshold,
the decision shown to the consumer is the frame's own verdict: with the
classifier enabled it is marker AND classifier, with it disabled it is the
marker alone. -/
theorem safety_gate_vision_fusion
    (current_distance distance_threshold : Int)
    (robot_detected classification_detected : Bool)
    (h : ¬ distance_threshold < current_distance) :
    uiSafetyDecision current_distance distance_threshold
        (canContinueMoving true robot_detected classification_detected)
      = (robot_detected && classification_detected) ∧
    uiSafetyDecision current_distance distance_threshold
        (canContinueMoving false robot_detected classification_detected)
      = robot_detected := by
  simp [uiSafetyDecision, canContinueMoving, h]

theorem safety_gate_vision_fusion_witness :
    ¬ (100 : Int) < 50 ∧
    (uiSafetyDecision 50 100 (canContinueMoving true true false) = (true && false) ∧
     uiSafetyDecision 50 100 (canContinueMoving false true false) = true) :=
  ⟨by decide, safety_gate_vision_fusion 50 100 true false (by decide)⟩

/-- C6: offering a frame to the classifier worker while the single-slot
channel is full leaves the in-flight item untouched and discards the new
frame; the try-push is a total function, so the caller is not blocked. -/
theorem classifier_drop_on_busy {α : Type} (inflight newFrame : α) :
    tryPutNowait (some inflight) newFrame = (some inflight, false) := rfl

/-- C7: disabling the classifier subsystem resets the whole classification
state — detected flag false, stored box cleared, counter zero — whatever
state was held before (in particular a stale active detection). -/
theorem disable_resets_classifier_state (s : CameraWorkerState) :
    (setRoboflowEnabled s false).classifier.classification_detected = false ∧
    (setRoboflowEnabled s false).classifier.classification_bbox = none ∧
    (setRoboflowEnabled s false).classifier.frames_without_classification = 0 ∧
    (setRoboflowEnabled s false).roboflow_enabled = false := by
  simp [setRoboflowEnabled]

/-- C5 counterexample: with the decoder raising, `_detect_qr` and the
enabled capture detection step yield the propagated error, not the
"no detection" value the claim promises. -/
theorem qr_decoder_error_not_absorbed :
    CameraWorker.detectQr (.raised "decode failed") = .error "decode failed" ∧
    captureDetectStep true (.raised "decode failed") ≠ .ok none :=
  ⟨rfl, by simp [captureDetectStep, CameraWorker.detectQr]⟩

/-- C5 (amended): a decoder call that returns normally with no matching
payload yields "no detection", but a decoder that raises has its error
propagate out of `_detect_qr` and out of the capture loop's detection step
(there is no handler), aborting the iteration rather than degrading to
"no detection". -/
theorem qr_detector_error_propagation
    (msg : String) (decoded : List DecodedSymbol)
    (hnone : ∀ qr ∈ decoded, qr.data ≠ TARGET_PAYLOAD) :
    CameraWorker.detectQr (.ok decoded) = .ok none ∧
    CameraWorker.detectQr (.raised msg) = .error msg ∧
    captureDetectStep true (.raised msg) = .error msg ∧
    captureDetectStep false (.raised msg) = .ok none := by
  refine ⟨?_, rfl, rfl, rfl⟩
  simp only [CameraWorker.detectQr, Except.ok.injEq]
  induction decoded with
  | nil => rfl
  | cons qr rest ih =>
      rw [findTargetSymbol, if_neg (hnone qr (by simp))]
      exact ih fun q hq => hnone q (by simp [hq])

theorem qr_detector_error_propagation_witness :
    ("OTHER" : String) ≠ TARGET_PAYLOAD ∧
    (CameraWorker.detectQr (.ok [{ data := "OTHER", rect := ⟨0, 0, 0, 0⟩ }]) = .ok none ∧
     CameraWorker.detectQr (.raised "boom") = .error "boom") :=
  have h := qr_detector_error_propagation "boom"
    [{ data := "OTHER", rect := ⟨0, 0, 0, 0⟩ }] (by decide)
  ⟨by decide, h.1, h.2.1⟩

/-- C4: every caught classifier-call failure yields `detected = false` from
the client (which is total, so nothing propagates out of the worker); any
result without a detection bumps `frames_without_classification` and, once
the counter reaches the persistence threshold, clears the detected flag and
the stored box; a success with a detection sets the flag, resets the
counter and stores the top-left-form box. -/
theorem classifier_failure_degrades
    (api_key : Option String) (persistence : Nat) (s : ClassifierState)
    (r : RoboflowResult) (det : RoboflowDetection)
    (hmiss : r.detected = false ∨ r.detection = none) :
    (RoboflowClient.detect api_key .timeout).detected = false ∧
    (RoboflowClient.detect api_key .requestFailed).detected = false ∧
    (RoboflowClient.detect api_key .unexpectedError).detected = false ∧
    (roboflowWorkerUpdate persistence s r).frames_without_classification
      = s.frames_without_classification + 1 ∧
    (persistence ≤ s.frames_without_classification + 1 →
      (roboflowWorkerUpdate persistence s r).classification_detected = false ∧
      (roboflowWorkerUpdate persistence s r).classification_bbox = none) ∧
    roboflowWorkerUpdate persistence s { detected := true, detection := some det }
      = { classification_detected := true
          classification_bbox := some
            { x := det.x - det.width / 2
              y := det.y - det.height / 2
              width := det.width
              height := det.height }
          frames_without_classification := 0 } := by
  obtain ⟨rdet, rbox⟩ := r
  have hm : roboflowWorkerUpdate persistence ⟨s.classification_detected,
      s.classification_bbox, s.frames_without_classification⟩ ⟨rdet, rbox⟩
      = classifierMiss persistence s := by
    rcases hmiss with h | h
    · simp only at h
      subst h
      rcases rbox with _ | b <;> rfl
    · simp only at h
      subst h
      rcases rdet <;> rfl
  obtain ⟨sd, sb, sf⟩ := s
  refine ⟨?_, ?_, ?_, ?_, ?_, rfl⟩
  · rcases api_key with _ | k <;> rfl
  · rcases api_key with _ | k <;> rfl
  · rcases api_key with _ | k <;> rfl
  · rw [hm]
    unfold classifierMiss
    by_cases hp : persistence ≤ sf + 1 <;> simp [hp]
  · intro hp
    rw [hm]
    unfold classifierMiss
    simp [hp]

theorem classifier_failure_degrades_witness :
    ((⟨false, none⟩ : RoboflowResult).detected = false ∨
      (⟨false, none⟩ : RoboflowResult).detection = none) ∧
    (2 : Nat) ≤ 1 + 1 ∧
    ((RoboflowClient.detect (some "key") .timeout).detected = false ∧
     (roboflowWorkerUpdate 2 ⟨true, some ⟨1, 2, 3, 4⟩, 1⟩
        ⟨false, none⟩).frames_without_classification = 1 + 1 ∧
     (roboflowWorkerUpdate 2 ⟨true, some ⟨1, 2, 3, 4⟩, 1⟩
        ⟨false, none⟩).classification_detected = false ∧
     (roboflowWorkerUpdate 2 ⟨true, some ⟨1, 2, 3, 4⟩, 1⟩
        ⟨false, none⟩).classification_bbox = none) :=
  have h := classifier_failure_degrades (some "key") 2 ⟨true, some ⟨1, 2, 3, 4⟩, 1⟩
    ⟨false, none⟩ ⟨"laptop", 1, 10, 20, 4, 6⟩ (Or.inl rfl)
  ⟨Or.inl rfl, by decide,
   h.1, h.2.2.2.1, (h.2.2.2.2.1 (by decide)).1, (h.2.2.2.2.1 (by decide)).2⟩

/-- C8: feeding a detection to `update` resets the miss counter, records the
payload, and outputs the exponential blend of the new box with the previous
smoothed box (componentwise, stored as the new smoothed box); on the
first-ever detection the raw box is output and stored with no blending. -/
theorem smoother_detection_branch
    (s : BoundingBoxSmoother) (d : DetectedQR) (old : BoundingBox)
    (hold : s.smoothed_box = some old) :
    ((s.update (some d)).1.frames_without_detection = 0 ∧
     (s.update (some d)).1.last_payload = some d.payload ∧
     (s.update (some d)).1.smoothed_box
       = some (smoothBlend s.smoothing_alpha d.bounding_box old) ∧
     (s.update (some d)).2
       = some { payload := d.payload
                bounding_box :=
                  { x := s.smoothing_alpha * d.bounding_box.x
                        + (1 - s.smoothing_alpha) * old.x
                    y := s.smoothing_alpha * d.bounding_box.y
                        + (1 - s.smoothing_alpha) * old.y
                    width := s.smoothing_alpha * d.bounding_box.width
                        + (1 - s.smoothing_alpha) * old.width
                    height := s.smoothing_alpha * d.bounding_box.height
                        + (1 - s.smoothing_alpha) * old.height } }) ∧
    (∀ t : BoundingBoxSmoother, t.smoothed_box = none →
      (t.update (some d)).1.frames_without_detection = 0 ∧
      (t.update (some d)).1.last_payload = some d.payload ∧
      (t.update (some d)).1.smoothed_box = some d.bounding_box ∧
      (t.update (some d)).2 = some { payload := d.payload
                                     bounding_box := d.bounding_box }) := by
  constructor
  · obtain ⟨pf, a, sb, fwd, lp⟩ := s
    simp only at hold
    subst hold
    simp [BoundingBoxSmoother.update, BoundingBoxSmoother.smoothBox, smoothBlend]
  · intro t ht
    obtain ⟨pf, a, sb, fwd, lp⟩ := t
    simp only at ht
    subst ht
    simp [BoundingBoxSmoother.update, BoundingBoxSmoother.smoothBox]

theorem smoother_detection_branch_witness :
    ((⟨5, 1, some ⟨8, 8, 2, 2⟩, 3, some "ROBOT_R1"⟩ :
        BoundingBoxSmoother).smoothed_box = some ⟨8, 8, 2, 2⟩) ∧
    ((BoundingBoxSmoother.update ⟨5, 1, some ⟨8, 8, 2, 2⟩, 3, some "ROBOT_R1"⟩
        (some ⟨"ROBOT_R1", ⟨10, 12, 4, 6⟩⟩)).1.frames_without_detection = 0 ∧
     (BoundingBoxSmoother.update ⟨5, 1, some ⟨8, 8, 2, 2⟩, 3, some "ROBOT_R1"⟩
        (some ⟨"ROBOT_R1", ⟨10, 12, 4, 6⟩⟩)).1.last_payload = some "ROBOT_R1" ∧
     (BoundingBoxSmoother.update ⟨5, 1, some ⟨8, 8, 2, 2⟩, 3, some "ROBOT_R1"⟩
        (some ⟨"ROBOT_R1", ⟨10, 12, 4, 6⟩⟩)).1.smoothed_box
        = some (smoothBlend 1 ⟨10, 12, 4, 6⟩ ⟨8, 8, 2, 2⟩) ∧
     (BoundingBoxSmoother.update ⟨5, 1, some ⟨8, 8, 2, 2⟩, 3, some "ROBOT_R1"⟩
        (some ⟨"ROBOT_R1", ⟨10, 12, 4, 6⟩⟩)).2
        = some { payload := "ROBOT_R1"
                 bounding_box :=
                   { x := 1 * 10 + (1 - 1) * 8
                     y := 1 * 12 + (1 - 1) * 8
                     width := 1 * 4 + (1 - 1) * 2
                     height := 1 * 6 + (1 - 1) * 2 } }) :=
  ⟨rfl, (smoother_detection_branch ⟨5, 1, some ⟨8, 8, 2, 2⟩, 3, some "ROBOT_R1"⟩
      ⟨"ROBOT_R1", ⟨10, 12, 4, 6⟩⟩ ⟨8, 8, 2, 2⟩ rfl).1⟩

/-- C10: the smoother invariant "smoothed box is absent iff last payload is
absent" holds in the freshly constructed state and is preserved by every
`update` call and by `reset`. -/
theorem smoother_box_payload_invariant
    (pf : Nat) (alpha : ℚ) (s : BoundingBoxSmoother) (d : Option DetectedQR)
    (h : SmootherInv s) :
    SmootherInv (BoundingBoxSmoother.init pf alpha) ∧
    SmootherInv ((s.update d).1) ∧
    SmootherInv s.reset := by
  refine ⟨by simp [SmootherInv, BoundingBoxSmoother.init], ?_,
    by simp [SmootherInv, BoundingBoxSmoother.reset]⟩
  obtain ⟨spf, a, sb, fwd, lp⟩ := s
  rcases d with _ | d
  · by_cases hp : spf ≤ fwd + 1
    · rw [BoundingBoxSmoother.update_miss_clear ⟨spf, a, sb, fwd, lp⟩ hp]
      simp [SmootherInv]
    · rw [BoundingBoxSmoother.update_miss_within ⟨spf, a, sb, fwd, lp⟩ hp]
      simpa [SmootherInv] using h
  · rcases sb with _ | b <;>
      simp [BoundingBoxSmoother.update, BoundingBoxSmoother.smoothBox, SmootherInv]

theorem smoother_box_payload_invariant_witness :
    SmootherInv ⟨5, 1, some ⟨1, 2, 3, 4⟩, 0, some "ROBOT_R1"⟩ ∧
    SmootherInv (BoundingBoxSmoother.init 5 1) ∧
    SmootherInv ((BoundingBoxSmoother.update
        ⟨5, 1, some ⟨1, 2, 3, 4⟩, 0, some "ROBOT_R1"⟩ none).1) ∧
    SmootherInv (BoundingBoxSmoother.reset
        ⟨5, 1, some ⟨1, 2, 3, 4⟩, 0, some "ROBOT_R1"⟩) :=
  have h := smoother_box_payload_invariant 5 1
    ⟨5, 1, some ⟨1, 2, 3, 4⟩, 0, some "ROBOT_R1"⟩ none (by decide)
  ⟨by decide, h.1, h.2.1, h.2.2⟩

/-- C3: after a detection (counter zero, box and payload held), each of the
first k < persistence_frames consecutive misses outputs the held detection
with the smoothed box unchanged; the miss on which the counter reaches
persistence_frames outputs nothing and clears the held box and payload; and
from a state that never saw a detection, a miss inside the window also
outputs nothing. -/
theorem smoother_persistence_window
    (s : BoundingBoxSmoother) (b : BoundingBox) (p : String) (k : Nat)
    (h0 : s.frames_without_detection = 0)
    (hn : 1 ≤ s.persistence_frames) :
    (s.smoothed_box = some b → s.last_payload = some p → 1 ≤ k →
      k < s.persistence_frames →
      missOutput s k = some { payload := p, bounding_box := b } ∧
      (missesState s k).smoothed_box = some b ∧
      (missesState s k).last_payload = some p) ∧
    (missOutput s s.persistence_frames = none ∧
     (missesState s s.persistence_frames).smoothed_box = none ∧
     (missesState s s.persistence_frames).last_payload = none) ∧
    (s.smoothed_box = none → 1 ≤ k → k < s.persistence_frames →
      missOutput s k = none) := by
  refine ⟨?_, ?_, ?_⟩
  · intro hb hp hk1 hkn
    obtain ⟨j, rfl⟩ : ∃ j, k = j + 1 := ⟨k - 1, by omega⟩
    have hst := missesState_stable s j h0 (by omega)
    have hmain := missesState_stable s (j + 1) h0 hkn
    refine ⟨?_, by rw [hmain]; exact hb, by rw [hmain]; exact hp⟩
    show ((missesState s j).update none).2 = _
    rw [hst]
    exact BoundingBoxSmoother.update_miss_held _ b p
      (by simpa using Nat.not_le_of_lt hkn) (by simpa using hb) (by simpa using hp)
  · obtain ⟨m, hm⟩ : ∃ m, s.persistence_frames = m + 1 :=
      ⟨s.persistence_frames - 1, by omega⟩
    have hst := missesState_stable s m h0 (by omega)
    have hclear := BoundingBoxSmoother.update_miss_clear
      { s with frames_without_detection := m } (by simp [hm])
    refine ⟨?_, ?_, ?_⟩
    · rw [hm]
      show ((missesState s m).update none).2 = none
      rw [hst, hclear]
    · rw [hm]
      show (((missesState s m).update none).1).smoothed_box = none
      rw [hst, hclear]
    · rw [hm]
      show (((missesState s m).update none).1).last_payload = none
      rw [hst, hclear]
  · intro hb hk1 hkn
    obtain ⟨j, rfl⟩ : ∃ j, k = j + 1 := ⟨k - 1, by omega⟩
    have hst := missesState_stable s j h0 (by omega)
    show ((missesState s j).update none).2 = none
    rw [hst]
    exact BoundingBoxSmoother.update_miss_nothing_held _
      (by simpa using Nat.not_le_of_lt hkn) (by simpa using hb)

theorem smoother_persistence_window_witness :
    missOutput ⟨5, 1, some ⟨1, 2, 3, 4⟩, 0, some "ROBOT_R1"⟩ 2
      = some { payload := "ROBOT_R1", bounding_box := ⟨1, 2, 3, 4⟩ } ∧
    (missesState ⟨5, 1, some ⟨1, 2, 3, 4⟩, 0, some "ROBOT_R1"⟩ 2).smoothed_box
      = some ⟨1, 2, 3, 4⟩ ∧
    missOutput ⟨5, 1, some ⟨1, 2, 3, 4⟩, 0, some "ROBOT_R1"⟩ 5 = none ∧
    (missesState ⟨5, 1, some ⟨1, 2, 3, 4⟩, 0, some "ROBOT_R1"⟩ 5).smoothed_box = none ∧
    (missesState ⟨5, 1, some ⟨1, 2, 3, 4⟩, 0, some "ROBOT_R1"⟩ 5).last_payload = none :=
  have h := smoother_persistence_window ⟨5, 1, some ⟨1, 2, 3, 4⟩, 0, some "ROBOT_R1"⟩
    ⟨1, 2, 3, 4⟩ "ROBOT_R1" 2 rfl (by decide)
  have h1 := h.1 rfl rfl (by decide) (by decide)
  ⟨h1.1, h1.2.1, h.2.1.1, h.2.1.2.1, h.2.1.2.2⟩

/-! ## Helper lemmas for the constant-input convergence claim -/

theorem iterSmooth_sub (alpha : ℚ) (t b : BoundingBox) (n : Nat) :
    (iterSmooth alpha t b n).x - t.x = (1 - alpha) ^ n * (b.x - t.x) ∧
    (iterSmooth alpha t b n).y - t.y = (1 - alpha) ^ n * (b.y - t.y) ∧
    (iterSmooth alpha t b n).width - t.width = (1 - alpha) ^ n * (b.width - t.width) ∧
    (iterSmooth alpha t b n).height - t.height = (1 - alpha) ^ n * (b.height - t.height) := by
  induction n with
  | zero => simp [iterSmooth]
  | succ n ih =>
      obtain ⟨hx, hy, hw, hh⟩ := ih
      refine ⟨?_, ?_, ?_, ?_⟩ <;> simp only [iterSmooth, smoothBlend, pow_succ]
      · linear_combination (1 - alpha) * hx
      · linear_combination (1 - alpha) * hy
      · linear_combination (1 - alpha) * hw
      · linear_combination (1 - alpha) * hh

theorem iterSmooth_abs (alpha : ℚ) (t b : BoundingBox) (n : Nat)
    (h : 0 ≤ 1 - alpha) :
    |(iterSmooth alpha t b n).x - t.x| = (1 - alpha) ^ n * |b.x - t.x| ∧
    |(iterSmooth alpha t b n).y - t.y| = (1 - alpha) ^ n * |b.y - t.y| ∧
    |(iterSmooth alpha t b n).width - t.width| = (1 - alpha) ^ n * |b.width - t.width| ∧
    |(iterSmooth alpha t b n).height - t.height|
      = (1 - alpha) ^ n * |b.height - t.height| := by
  obtain ⟨hx, hy, hw, hh⟩ := iterSmooth_sub alpha t b n
  have hpn : (0 : ℚ) ≤ (1 - alpha) ^ n := pow_nonneg h n
  exact ⟨by rw [hx, abs_mul, abs_of_nonneg hpn],
    by rw [hy, abs_mul, abs_of_nonneg hpn],
    by rw [hw, abs_mul, abs_of_nonneg hpn],
    by rw [hh, abs_mul, abs_of_nonneg hpn]⟩

theorem abs_blend_lt (alpha prev t : ℚ) (ha0 : 0 < alpha) (ha1 : alpha < 1)
    (hne : prev ≠ t) :
    |alpha * t + (1 - alpha) * prev - t| < |prev - t| := by
  have key : alpha * t + (1 - alpha) * prev - t = (1 - alpha) * (prev - t) := by ring
  have hpos : 0 < |prev - t| := abs_pos.mpr (sub_ne_zero.mpr hne)
  rw [key, abs_mul, abs_of_pos (by linarith : (0 : ℚ) < 1 - alpha)]
  exact mul_lt_of_lt_one_left hpos (by linarith)

theorem geom_abs_conv (q e ε : ℚ) (hq0 : 0 ≤ q) (hq1 : q < 1) (he : 0 ≤ e)
    (hε : 0 < ε) :
    ∃ N : Nat, ∀ n, N ≤ n → q ^ n * e < ε := by
  have hE : (0 : ℚ) < e + 1 := by linarith
  obtain ⟨N, hN⟩ := exists_pow_lt_of_lt_one (div_pos hε hE) hq1
  refine ⟨N, fun n hn => ?_⟩
  have h1 : q ^ n ≤ q ^ N := pow_le_pow_of_le_one hq0 hq1.le hn
  have h2 : q ^ n * e ≤ q ^ N * (e + 1) := by
    have hp1 := pow_nonneg hq0 n
    nlinarith
  have h3 : q ^ N * (e + 1) < (ε / (e + 1)) * (e + 1) :=
    mul_lt_mul_of_pos_right hN hE
  rw [div_mul_cancel₀ ε (ne_of_gt hE)] at h3
  linarith

theorem geom_comp_bound (q a e ε : ℚ) (hq : 0 ≤ q) (hle : a ≤ e)
    (h : q * e < ε) : q * a < ε :=
  lt_of_le_of_lt (mul_le_mul_of_nonneg_left hle hq) h

theorem update_detect_smoothed (t : BoundingBoxSmoother) (d : DetectedQR)
    (old : BoundingBox) (h : t.smoothed_box = some old) :
    (t.update (some d)).1.smoothed_box
      = some (smoothBlend t.smoothing_alpha d.bounding_box old) := by
  obtain ⟨pf, a, sb, fwd, lp⟩ := t
  simp only at h
  subst h
  simp [BoundingBoxSmoother.update, BoundingBoxSmoother.smoothBox]

theorem update_preserves_alpha (s : BoundingBoxSmoother) (d : Option DetectedQR) :
    (s.update d).1.smoothing_alpha = s.smoothing_alpha := by
  obtain ⟨pf, a, sb, fwd, lp⟩ := s
  rcases d with _ | d
  · by_cases hp : pf ≤ fwd + 1
    · rw [BoundingBoxSmoother.update_miss_clear ⟨pf, a, sb, fwd, lp⟩ hp]
    · rw [BoundingBoxSmoother.update_miss_within ⟨pf, a, sb, fwd, lp⟩ hp]
  · rcases sb with _ | old <;>
      simp [BoundingBoxSmoother.update, BoundingBoxSmoother.smoothBox]

theorem constFeed_alpha (s : BoundingBoxSmoother) (d : DetectedQR) (n : Nat) :
    (constFeed s d n).smoothing_alpha = s.smoothing_alpha := by
  induction n with
  | zero => rfl
  | succ n ih => rw [constFeed, update_preserves_alpha, ih]

theorem constFeed_box (s : BoundingBoxSmoother) (d : DetectedQR) (n : Nat) :
    (constFeed s d (n + 1)).smoothed_box
      = some (iterSmooth s.smoothing_alpha d.bounding_box (firstFeedBox s d) n) := by
  induction n with
  | zero =>
      show ((constFeed s d 0).update (some d)).1.smoothed_box = _
      obtain ⟨pf, a, sb, fwd, lp⟩ := s
      rcases sb with _ | old <;>
        simp [constFeed, BoundingBoxSmoother.update, BoundingBoxSmoother.smoothBox,
          firstFeedBox, iterSmooth]
  | succ n ih =>
      show ((constFeed s d (n + 1)).update (some d)).1.smoothed_box = _
      rw [update_detect_smoothed (constFeed s d (n + 1)) d _ ih, constFeed_alpha]
      rfl

/-- C9: for 0 < alpha < 1, feeding the same detection to the smoother
repeatedly drives the held smoothed box to the target componentwise: the
first conjunct ties the smoother's state after n+1 feeds to the blend
iteration; the second says each component's distance to the target strictly
decreases on every step where it is nonzero; the third says every component
distance eventually falls below any positive bound. -/
theorem smoothing_constant_input_converges
    (s : BoundingBoxSmoother) (d : DetectedQR)
    (ha0 : 0 < s.smoothing_alpha) (ha1 : s.smoothing_alpha < 1) :
    (∀ n, (constFeed s d (n + 1)).smoothed_box
        = some (iterSmooth s.smoothing_alpha d.bounding_box (firstFeedBox s d) n)) ∧
    (∀ (b : BoundingBox) (n : Nat),
      ((iterSmooth s.smoothing_alpha d.bounding_box b n).x ≠ d.bounding_box.x →
        |(iterSmooth s.smoothing_alpha d.bounding_box b (n + 1)).x - d.bounding_box.x|
          < |(iterSmooth s.smoothing_alpha d.bounding_box b n).x - d.bounding_box.x|) ∧
      ((iterSmooth s.smoothing_alpha d.bounding_box b n).y ≠ d.bounding_box.y →
        |(iterSmooth s.smoothing_alpha d.bounding_box b (n + 1)).y - d.bounding_box.y|
          < |(iterSmooth s.smoothing_alpha d.bounding_box b n).y - d.bounding_box.y|) ∧
      ((iterSmooth s.smoothing_alpha d.bounding_box b n).width ≠ d.bounding_box.width →
        |(iterSmooth s.smoothing_alpha d.bounding_box b (n + 1)).width
            - d.bounding_box.width|
          < |(iterSmooth s.smoothing_alpha d.bounding_box b n).width
              - d.bounding_box.width|) ∧
      ((iterSmooth s.smoothing_alpha d.bounding_box b n).height ≠ d.bounding_box.height →
        |(iterSmooth s.smoothing_alpha d.bounding_box b (n + 1)).height
            - d.bounding_box.height|
          < |(iterSmooth s.smoothing_alpha d.bounding_box b n).height
              - d.bounding_box.height|)) ∧
    (∀ (b : BoundingBox) (ε : ℚ), 0 < ε → ∃ N : Nat, ∀ n, N ≤ n →
      |(iterSmooth s.smoothing_alpha d.bounding_box b n).x - d.bounding_box.x| < ε ∧
      |(iterSmooth s.smoothing_alpha d.bounding_box b n).y - d.bounding_box.y| < ε ∧
      |(iterSmooth s.smoothing_alpha d.bounding_box b n).width - d.bounding_box.width| < ε ∧
      |(iterSmooth s.smoothing_alpha d.bounding_box b n).height - d.bounding_box.height|
        < ε) := by
  have hq0 : (0 : ℚ) ≤ 1 - s.smoothing_alpha := by linarith
  refine ⟨constFeed_box s d, ?_, ?_⟩
  · intro b n
    refine ⟨fun hne => ?_, fun hne => ?_, fun hne => ?_, fun hne => ?_⟩ <;>
      simp only [iterSmooth, smoothBlend] <;>
      exact abs_blend_lt s.smoothing_alpha _ _ ha0 ha1 hne
  · intro b ε hε
    have hq1 : 1 - s.smoothing_alpha < 1 := by linarith
    obtain ⟨N, hN⟩ := geom_abs_conv (1 - s.smoothing_alpha)
      (|b.x - d.bounding_box.x| + |b.y - d.bounding_box.y|
        + |b.width - d.bounding_box.width| + |b.height - d.bounding_box.height|) ε
      hq0 hq1 (by positivity) hε
    refine ⟨N, fun n hn => ?_⟩
    have hqe := hN n hn
    obtain ⟨hax, hay, haw, hah⟩ := iterSmooth_abs s.smoothing_alpha d.bounding_box b n hq0
    have hpn : (0 : ℚ) ≤ (1 - s.smoothing_alpha) ^ n := pow_nonneg hq0 n
    have h1 := abs_nonneg (b.x - d.bounding_box.x)
    have h2 := abs_nonneg (b.y - d.bounding_box.y)
    have h3 := abs_nonneg (b.width - d.bounding_box.width)
    have h4 := abs_nonneg (b.height - d.bounding_box.height)
    refine ⟨?_, ?_, ?_, ?_⟩
    · rw [hax]
      exact geom_comp_bound _ _ _ _ hpn (by linarith) hqe
    · rw [hay]
      exact geom_comp_bound _ _ _ _ hpn (by linarith) hqe
    · rw [haw]
      exact geom_comp_bound _ _ _ _ hpn (by linarith) hqe
    · rw [hah]
      exact geom_comp_bound _ _ _ _ hpn (by linarith) hqe

theorem smoothing_constant_input_converges_witness :
    (0 : ℚ) < (⟨3, 5, by decide, by decide⟩ : ℚ) ∧
    (⟨3, 5, by decide, by decide⟩ : ℚ) < 1 ∧
    (constFeed ⟨5, (⟨3, 5, by decide, by decide⟩ : ℚ), none, 0, none⟩
        ⟨"ROBOT_R1", ⟨1, 2, 3, 4⟩⟩ (2 + 1)).smoothed_box
      = some (iterSmooth (⟨3, 5, by decide, by decide⟩ : ℚ) ⟨1, 2, 3, 4⟩
          (firstFeedBox ⟨5, (⟨3, 5, by decide, by decide⟩ : ℚ), none, 0, none⟩
            ⟨"ROBOT_R1", ⟨1, 2, 3, 4⟩⟩) 2) :=
  ⟨by decide, by decide,
   (smoothing_constant_input_converges
      ⟨5, (⟨3, 5, by decide, by decide⟩ : ℚ), none, 0, none⟩
      ⟨"ROBOT_R1", ⟨1, 2, 3, 4⟩⟩ (by decide) (by decide)).1 2⟩
